import Mathlib

/-!
Shallow embedding of `src/app.py` (Mergington High School activities API).

Python dicts are modelled as association lists `List (String × α)` with
first-occurrence lookup, in-place update (`dictSet`, mirroring
`d[k] = v`), and deletion of the first occurrence of a key
(`dictErase`, mirroring `del d[k]`; on a dict, keys are unique, so the
first occurrence is the only one).  Python's `list.append` is `· ++ [x]`
and `list.remove` is `listRemove` (first matching entry).

Python truthiness matters in the auth code (`if session_token and ...`,
`if not user`): the empty string is falsy, and the embedding reproduces
this.
-/

namespace Mergington

/-- First-occurrence lookup in an association list, `d[k]` / `k in d`. -/
def dictLookup {α : Type} (d : List (String × α)) (k : String) : Option α :=
  match d with
  | [] => none
  | (k0, v) :: rest => if k0 = k then some v else dictLookup rest k

/-- `k in d` for a Python dict. -/
def hasKey {α : Type} (d : List (String × α)) (k : String) : Bool :=
  (dictLookup d k).isSome

/-- `d[k] = v`: replace the value at the first occurrence of `k`,
or append the binding when `k` is absent. -/
def dictSet {α : Type} (d : List (String × α)) (k : String) (v : α) :
    List (String × α) :=
  match d with
  | [] => [(k, v)]
  | (k0, v0) :: rest =>
    if k0 = k then (k0, v) :: rest else (k0, v0) :: dictSet rest k v

/-- `del d[k]`: remove the first occurrence of the key `k` (no-op when
absent, though the source only calls it after a membership test). -/
def dictErase {α : Type} (d : List (String × α)) (k : String) :
    List (String × α) :=
  match d with
  | [] => []
  | (k0, v0) :: rest =>
    if k0 = k then rest else (k0, v0) :: dictErase rest k

/-- Python `list.remove(x)`: drop the first element equal to `x`. -/
def listRemove (l : List String) (x : String) : List String :=
  match l with
  | [] => []
  | y :: rest => if y = x then rest else y :: listRemove rest x

/-- One entry of the `activities` dict. -/
structure Activity where
  description : String
  schedule : String
  max_participants : Nat
  participants : List String
deriving Repr, DecidableEq

/-- The `activities` dict: activity name to `Activity`. -/
abbrev Catalog := List (String × Activity)

/-- The `sessions` dict: session token to username. -/
abbrev Sessions := List (String × String)

/-- The error taxonomy surfaced through `HTTPException`. -/
inductive ApiError where
  /-- 401 "Authentication required" (from `require_auth`). -/
  | unauthenticated
  /-- 401 "Invalid credentials" (from `login`). -/
  | invalidCredentials
  /-- 404 "Activity not found". -/
  | notFound
  /-- 400 "Student is already signed up". -/
  | alreadyRegistered
  /-- 400 "Student is not signed up for this activity". -/
  | notRegistered
deriving Repr, DecidableEq

/-- The seeded `activities` dict from `app.py`. -/
def seedActivities : Catalog :=
  [ ("Chess Club",
      { description := "Learn strategies and compete in chess tournaments"
        schedule := "Fridays, 3:30 PM - 5:00 PM"
        max_participants := 12
        participants := ["michael@mergington.edu", "daniel@mergington.edu"] }),
    ("Programming Class",
      { description := "Learn programming fundamentals and build software projects"
        schedule := "Tuesdays and Thursdays, 3:30 PM - 4:30 PM"
        max_participants := 20
        participants := ["emma@mergington.edu", "sophia@mergington.edu"] }),
    ("Gym Class",
      { description := "Physical education and sports activities"
        schedule := "Mondays, Wednesdays, Fridays, 2:00 PM - 3:00 PM"
        max_participants := 30
        participants := ["john@mergington.edu", "olivia@mergington.edu"] }),
    ("Soccer Team",
      { description := "Join the school soccer team and compete in matches"
        schedule := "Tuesdays and Thursdays, 4:00 PM - 5:30 PM"
        max_participants := 22
        participants := ["liam@mergington.edu", "noah@mergington.edu"] }),
    ("Basketball Team",
      { description := "Practice and play basketball with the school team"
        schedule := "Wednesdays and Fridays, 3:30 PM - 5:00 PM"
        max_participants := 15
        participants := ["ava@mergington.edu", "mia@mergington.edu"] }),
    ("Art Club",
      { description := "Explore your creativity through painting and drawing"
        schedule := "Thursdays, 3:30 PM - 5:00 PM"
        max_participants := 15
        participants := ["amelia@mergington.edu", "harper@mergington.edu"] }),
    ("Drama Club",
      { description := "Act, direct, and produce plays and performances"
        schedule := "Mondays and Wednesdays, 4:00 PM - 5:30 PM"
        max_participants := 20
        participants := ["ella@mergington.edu", "scarlett@mergington.edu"] }),
    ("Math Club",
      { description := "Solve challenging problems and participate in math competitions"
        schedule := "Tuesdays, 3:30 PM - 4:30 PM"
        max_participants := 10
        participants := ["james@mergington.edu", "benjamin@mergington.edu"] }),
    ("Debate Team",
      { description := "Develop public speaking and argumentation skills"
        schedule := "Fridays, 4:00 PM - 5:30 PM"
        max_participants := 12
        participants := ["charlotte@mergington.edu", "henry@mergington.edu"] }) ]

/-- `get_current_user(session_token)`: some username when the cookie is
present, truthy (nonempty) and a key of `sessions`; `None` otherwise. -/
def get_current_user (sessions : Sessions) (session_token : Option String) :
    Option String :=
  match session_token with
  | none => none
  | some t =>
    if t ≠ "" ∧ hasKey sessions t = true then dictLookup sessions t else none

/-- `require_auth(session_token)`: the username, or 401 when
`get_current_user` yields `None` or a falsy (empty) username. -/
def require_auth (sessions : Sessions) (session_token : Option String) :
    Except ApiError String :=
  match get_current_user sessions session_token with
  | none => Except.error ApiError.unauthenticated
  | some u => if u = "" then Except.error ApiError.unauthenticated else Except.ok u

/-- Core of `signup_for_activity` (after the auth dependency): returns the
updated catalog together with the response.  Error branches raise before
any mutation, so they return the catalog unchanged. -/
def signup_for_activity (activities : Catalog) (activity_name email : String) :
    Catalog × Except ApiError String :=
  match dictLookup activities activity_name with
  | none => (activities, Except.error ApiError.notFound)
  | some activity =>
    if email ∈ activity.participants then
      (activities, Except.error ApiError.alreadyRegistered)
    else
      (dictSet activities activity_name
         { activity with participants := activity.participants ++ [email] },
       Except.ok ("Signed up " ++ email ++ " for " ++ activity_name))

/-- Core of `unregister_from_activity` (after the auth dependency). -/
def unregister_from_activity (activities : Catalog) (activity_name email : String) :
    Catalog × Except ApiError String :=
  match dictLookup activities activity_name with
  | none => (activities, Except.error ApiError.notFound)
  | some activity =>
    if email ∈ activity.participants then
      (dictSet activities activity_name
         { activity with participants := listRemove activity.participants email },
       Except.ok ("Unregistered " ++ email ++ " from " ++ activity_name))
    else
      (activities, Except.error ApiError.notRegistered)

/-- `login(credentials)`: linear scan of the loaded teacher list (pairs
`(username, password)`); on the first exact match of both fields it stores
`freshToken ↦ username` in `sessions` (the token the source draws from
`secrets.token_urlsafe(32)` is passed in as a parameter) and answers the
success message; otherwise 401 with no session change. -/
def login (teachers : List (String × String)) (sessions : Sessions)
    (username password freshToken : String) : Sessions × Except ApiError String :=
  match teachers with
  | [] => (sessions, Except.error ApiError.invalidCredentials)
  | (u, p) :: rest =>
    if u = username ∧ p = password then
      (dictSet sessions freshToken username, Except.ok "Login successful")
    else
      login rest sessions username password freshToken

/-- `logout(session_token)`: delete the session entry when the cookie is
truthy and present; always answers the logout message. -/
def logout (sessions : Sessions) (session_token : Option String) : Sessions :=
  match session_token with
  | none => sessions
  | some t =>
    if t ≠ "" ∧ hasKey sessions t = true then dictErase sessions t else sessions

/-- The whole mutable state of the process: the two module-level dicts. -/
structure ServerState where
  sessions : Sessions
  activities : Catalog
deriving Repr, DecidableEq

/-- `POST /activities/{name}/signup`: `require_auth` dependency, then the
handler body. -/
def signupEndpoint (st : ServerState) (session_token : Option String)
    (activity_name email : String) : ServerState × Except ApiError String :=
  match require_auth st.sessions session_token with
  | Except.error e => (st, Except.error e)
  | Except.ok _user =>
    let r := signup_for_activity st.activities activity_name email
    ({ st with activities := r.1 }, r.2)

/-- `DELETE /activities/{name}/unregister`: `require_auth` dependency, then
the handler body. -/
def unregisterEndpoint (st : ServerState) (session_token : Option String)
    (activity_name email : String) : ServerState × Except ApiError String :=
  match require_auth st.sessions session_token with
  | Except.error e => (st, Except.error e)
  | Except.ok _user =>
    let r := unregister_from_activity st.activities activity_name email
    ({ st with activities := r.1 }, r.2)

/-- `POST /login` at the state level. -/
def loginEndpoint (teachers : List (String × String)) (st : ServerState)
    (username password freshToken : String) : ServerState × Except ApiError String :=
  let r := login teachers st.sessions username password freshToken
  ({ st with sessions := r.1 }, r.2)

/-- `POST /logout` at the state level. -/
def logoutEndpoint (st : ServerState) (session_token : Option String) :
    ServerState × Except ApiError String :=
  ({ st with sessions := logout st.sessions session_token },
   Except.ok "Logged out successfully")

/-- The no-duplicates roster invariant over the whole catalog. -/
def CatalogNodup (cat : Catalog) : Prop :=
  ∀ p ∈ cat, p.2.participants.Nodup

instance : DecidablePred CatalogNodup := fun cat =>
  inferInstanceAs (Decidable (∀ p ∈ cat, p.2.participants.Nodup))

/-- Well-formedness of the session dict: unique keys (a dict cannot hold a
key twice) and no empty-string token (tokens come from
`secrets.token_urlsafe(32)`, which never yields the empty string). -/
def SessionsWF (s : Sessions) : Prop :=
  (s.map Prod.fst).Nodup ∧ ∀ p ∈ s, p.1 ≠ ""

instance : DecidablePred SessionsWF := fun s =>
  inferInstanceAs (Decidable ((s.map Prod.fst).Nodup ∧ ∀ p ∈ s, p.1 ≠ ""))

/-- Every activity's `max_participants` overwritten with `n`; used to state
that capacity data never influences behaviour. -/
def setAllMax (cat : Catalog) (n : Nat) : Catalog :=
  cat.map (fun p => (p.1, { p.2 with max_participants := n }))

/-! ### Lemmas about the dict model -/

lemma dictLookup_dictSet_self {α : Type} (d : List (String × α)) (k : String)
    (v : α) : dictLookup (dictSet d k v) k = some v := by
  induction d with
  | nil => simp [dictSet, dictLookup]
  | cons p rest ih =>
    obtain ⟨k0, v0⟩ := p
    by_cases h : k0 = k <;> simp [dictSet, dictLookup, h, ih]

lemma dictLookup_dictSet_ne {α : Type} (d : List (String × α)) (k : String)
    (v : α) (k' : String) (h : k' ≠ k) :
    dictLookup (dictSet d k v) k' = dictLookup d k' := by
  induction d with
  | nil => simp [dictSet, dictLookup, Ne.symm h]
  | cons p rest ih =>
    obtain ⟨k0, v0⟩ := p
    by_cases hk : k0 = k
    · subst hk
      have hne : k0 ≠ k' := Ne.symm h
      simp [dictSet, dictLookup, hne]
    · simp [dictSet, dictLookup, hk, ih]

lemma mem_dictSet {α : Type} {p : String × α} {d : List (String × α)}
    {k : String} {v : α} (h : p ∈ dictSet d k v) : p = (k, v) ∨ p ∈ d := by
  induction d with
  | nil => simpa [dictSet] using h
  | cons q rest ih =>
    obtain ⟨k0, v0⟩ := q
    by_cases hk : k0 = k
    · subst hk
      rcases (by simpa [dictSet] using h : p = (k0, v) ∨ p ∈ rest) with h1 | h1
      · exact Or.inl h1
      · exact Or.inr (List.mem_cons_of_mem _ h1)
    · rcases (by simpa [dictSet, hk] using h : p = (k0, v0) ∨ p ∈ dictSet rest k v)
        with h1 | h1
      · exact Or.inr (by simp [h1])
      · rcases ih h1 with h2 | h2
        · exact Or.inl h2
        · exact Or.inr (List.mem_cons_of_mem _ h2)

lemma dictLookup_mem {α : Type} {d : List (String × α)} {k : String} {v : α}
    (h : dictLookup d k = some v) : (k, v) ∈ d := by
  induction d with
  | nil => simp [dictLookup] at h
  | cons q rest ih =>
    obtain ⟨k0, v0⟩ := q
    by_cases hk : k0 = k
    · subst hk
      simp [dictLookup] at h
      simp [h]
    · simp [dictLookup, hk] at h
      exact List.mem_cons_of_mem _ (ih h)

lemma dictSet_dictSet {α : Type} (d : List (String × α)) (k : String)
    (v w : α) : dictSet (dictSet d k v) k w = dictSet d k w := by
  induction d with
  | nil => simp [dictSet]
  | cons p rest ih =>
    obtain ⟨k0, v0⟩ := p
    by_cases hk : k0 = k <;> simp [dictSet, hk, ih]

lemma dictSet_lookup_eq_self {α : Type} {d : List (String × α)} {k : String}
    {v : α} (h : dictLookup d k = some v) : dictSet d k v = d := by
  induction d with
  | nil => simp [dictLookup] at h
  | cons p rest ih =>
    obtain ⟨k0, v0⟩ := p
    by_cases hk : k0 = k
    · subst hk
      simp [dictLookup] at h
      simp [dictSet, h]
    · simp [dictLookup, hk] at h
      simp [dictSet, hk, ih h]

lemma dictLookup_eq_none_of_not_key {α : Type} {d : List (String × α)}
    {k : String} (h : ∀ p ∈ d, p.1 ≠ k) : dictLookup d k = none := by
  induction d with
  | nil => simp [dictLookup]
  | cons p rest ih =>
    obtain ⟨k0, v0⟩ := p
    have hk : k0 ≠ k := h (k0, v0) (by simp)
    simp [dictLookup, hk]
    exact ih fun q hq => h q (List.mem_cons_of_mem _ hq)

lemma dictLookup_dictErase_self {α : Type} {d : List (String × α)} {k : String}
    (h : (d.map Prod.fst).Nodup) : dictLookup (dictErase d k) k = none := by
  induction d with
  | nil => simp [dictErase, dictLookup]
  | cons p rest ih =>
    obtain ⟨k0, v0⟩ := p
    simp only [List.map_cons, List.nodup_cons] at h
    by_cases hk : k0 = k
    · subst hk
      simp only [dictErase, if_pos rfl]
      exact dictLookup_eq_none_of_not_key fun q hq => by
        intro hq1
        exact h.1 (by simpa [hq1] using List.mem_map_of_mem Prod.fst hq)
    · simp [dictErase, dictLookup, hk]
      exact ih h.2

lemma hasKey_eq_false_iff {α : Type} {d : List (String × α)} {k : String} :
    hasKey d k = false ↔ dictLookup d k = none := by
  unfold hasKey
  cases dictLookup d k <;> simp

/-! ### Lemmas about `listRemove` -/

lemma listRemove_sublist (l : List String) (x : String) :
    List.Sublist (listRemove l x) l := by
  induction l with
  | nil => simp [listRemove]
  | cons y rest ih =>
    by_cases h : y = x
    · simp only [listRemove, if_pos h]
      exact List.sublist_cons_self _ _
    · simp only [listRemove, if_neg h]
      exact List.Sublist.cons₂ y ih

lemma listRemove_append_self {l : List String} {x : String} (h : x ∉ l) :
    listRemove (l ++ [x]) x = l := by
  induction l with
  | nil => simp [listRemove]
  | cons y rest ih =>
    have hy : y ≠ x := fun e => h (by simp [e])
    have hx : x ∉ rest := fun hx => h (List.mem_cons_of_mem _ hx)
    simp [listRemove, hy, ih hx]

lemma listRemove_split {l : List String} {x : String} (h : x ∈ l) :
    ∃ l1 l2, l = l1 ++ x :: l2 ∧ x ∉ l1 ∧ listRemove l x = l1 ++ l2 := by
  induction l with
  | nil => simp at h
  | cons y rest ih =>
    by_cases hy : y = x
    · subst hy
      exact ⟨[], rest, by simp [listRemove]⟩
    · have hx : x ∈ rest := by
        rcases List.mem_cons.1 h with h1 | h1
        · exact absurd h1.symm hy
        · exact h1
      obtain ⟨l1, l2, he, hn, hr⟩ := ih hx
      refine ⟨y :: l1, l2, by simp [he], ?_, ?_⟩
      · simp only [List.mem_cons, not_or]
        exact ⟨fun e => hy e.symm, hn⟩
      · simp [listRemove, hy, hr]

lemma nodup_append_singleton {l : List String} {x : String} (h1 : l.Nodup)
    (h2 : x ∉ l) : (l ++ [x]).Nodup := by
  simp [List.nodup_append, h1, h2]

/-! ### Lemmas about `setAllMax` -/

lemma dictLookup_setAllMax (cat : Catalog) (n : Nat) (k : String) :
    dictLookup (setAllMax cat n) k =
      (dictLookup cat k).map (fun a => { a with max_participants := n }) := by
  induction cat with
  | nil => simp [setAllMax, dictLookup]
  | cons p rest ih =>
    obtain ⟨k0, v0⟩ := p
    by_cases hk : k0 = k
    · simp [setAllMax, dictLookup, hk]
    · simpa [setAllMax, dictLookup, hk] using ih

lemma setAllMax_dictSet (cat : Catalog) (n : Nat) (k : String) (v : Activity) :
    setAllMax (dictSet cat k v) n =
      dictSet (setAllMax cat n) k { v with max_participants := n } := by
  induction cat with
  | nil => simp [setAllMax, dictSet]
  | cons p rest ih =>
    obtain ⟨k0, v0⟩ := p
    by_cases hk : k0 = k
    · simp [setAllMax, dictSet, hk]
    · simpa [setAllMax, dictSet, hk] using ih

/-! ### Lemmas about the auth gate -/

lemma require_auth_of_not_key {sessions : Sessions} {t : String}
    (h : hasKey sessions t = false) :
    require_auth sessions (some t) = Except.error ApiError.unauthenticated := by
  simp [require_auth, get_current_user, h]

lemma signupEndpoint_err {st : ServerState} {tok : Option String}
    {name email : String} {e : ApiError}
    (h : require_auth st.sessions tok = Except.error e) :
    signupEndpoint st tok name email = (st, Except.error e) := by
  simp [signupEndpoint, h]

lemma unregisterEndpoint_err {st : ServerState} {tok : Option String}
    {name email : String} {e : ApiError}
    (h : require_auth st.sessions tok = Except.error e) :
    unregisterEndpoint st tok name email = (st, Except.error e) := by
  simp [unregisterEndpoint, h]

lemma signupEndpoint_auth {st : ServerState} {tok : Option String}
    {u : String} (name email : String)
    (h : require_auth st.sessions tok = Except.ok u) :
    signupEndpoint st tok name email =
      ({ st with activities := (signup_for_activity st.activities name email).1 },
       (signup_for_activity st.activities name email).2) := by
  simp [signupEndpoint, h]

lemma unregisterEndpoint_auth {st : ServerState} {tok : Option String}
    {u : String} (name email : String)
    (h : require_auth st.sessions tok = Except.ok u) :
    unregisterEndpoint st tok name email =
      ({ st with
           activities := (unregister_from_activity st.activities name email).1 },
       (unregister_from_activity st.activities name email).2) := by
  simp [unregisterEndpoint, h]

/-! ### Case lemmas for the individual operations -/

lemma signup_eq_notFound {cat : Catalog} {name : String} (email : String)
    (h : dictLookup cat name = none) :
    signup_for_activity cat name email =
      (cat, Except.error ApiError.notFound) := by
  simp [signup_for_activity, h]

lemma signup_eq_already {cat : Catalog} {name email : String} {act : Activity}
    (h : dictLookup cat name = some act) (hm : email ∈ act.participants) :
    signup_for_activity cat name email =
      (cat, Except.error ApiError.alreadyRegistered) := by
  simp [signup_for_activity, h, hm]

lemma signup_eq_ok {cat : Catalog} {name email : String} {act : Activity}
    (h : dictLookup cat name = some act) (hm : email ∉ act.participants) :
    signup_for_activity cat name email =
      (dictSet cat name { act with participants := act.participants ++ [email] },
       Except.ok ("Signed up " ++ email ++ " for " ++ name)) := by
  simp [signup_for_activity, h, hm]

lemma unregister_eq_notFound {cat : Catalog} {name : String} (email : String)
    (h : dictLookup cat name = none) :
    unregister_from_activity cat name email =
      (cat, Except.error ApiError.notFound) := by
  simp [unregister_from_activity, h]

lemma unregister_eq_notRegistered {cat : Catalog} {name email : String}
    {act : Activity} (h : dictLookup cat name = some act)
    (hm : email ∉ act.participants) :
    unregister_from_activity cat name email =
      (cat, Except.error ApiError.notRegistered) := by
  simp [unregister_from_activity, h, hm]

lemma unregister_eq_ok {cat : Catalog} {name email : String} {act : Activity}
    (h : dictLookup cat name = some act) (hm : email ∈ act.participants) :
    unregister_from_activity cat name email =
      (dictSet cat name
         { act with participants := listRemove act.participants email },
       Except.ok ("Unregistered " ++ email ++ " from " ++ name)) := by
  simp [unregister_from_activity, h, hm]

lemma signup_error_state {cat : Catalog} {name email : String} {e : ApiError}
    (h : (signup_for_activity cat name email).2 = Except.error e) :
    (signup_for_activity cat name email).1 = cat := by
  cases hl : dictLookup cat name with
  | none => rw [signup_eq_notFound email hl]
  | some act =>
    by_cases hm : email ∈ act.participants
    · rw [signup_eq_already hl hm]
    · rw [signup_eq_ok hl hm] at h
      simp at h

lemma unregister_error_state {cat : Catalog} {name email : String}
    {e : ApiError}
    (h : (unregister_from_activity cat name email).2 = Except.error e) :
    (unregister_from_activity cat name email).1 = cat := by
  cases hl : dictLookup cat name with
  | none => rw [unregister_eq_notFound email hl]
  | some act =>
    by_cases hm : email ∈ act.participants
    · rw [unregister_eq_ok hl hm] at h
      simp at h
    · rw [unregister_eq_notRegistered hl hm]

lemma login_eq_ok {teachers : List (String × String)} {sessions : Sessions}
    {username password : String} (freshToken : String)
    (h : ∃ t ∈ teachers, t.1 = username ∧ t.2 = password) :
    login teachers sessions username password freshToken =
      (dictSet sessions freshToken username, Except.ok "Login successful") := by
  induction teachers with
  | nil => simp at h
  | cons t rest ih =>
    obtain ⟨tu, tp⟩ := t
    by_cases hm : tu = username ∧ tp = password
    · simp [login, hm]
    · have hr : ∃ t ∈ rest, t.1 = username ∧ t.2 = password := by
        rcases h with ⟨t, ht, hmatch⟩
        rcases List.mem_cons.1 ht with h1 | h1
        · exact absurd (by simpa [h1] using hmatch) hm
        · exact ⟨t, h1, hmatch⟩
      simp only [login, if_neg hm]
      exact ih hr

lemma login_eq_error {teachers : List (String × String)} {sessions : Sessions}
    {username password : String} (freshToken : String)
    (h : ∀ t ∈ teachers, ¬(t.1 = username ∧ t.2 = password)) :
    login teachers sessions username password freshToken =
      (sessions, Except.error ApiError.invalidCredentials) := by
  induction teachers with
  | nil => simp [login]
  | cons t rest ih =>
    obtain ⟨tu, tp⟩ := t
    have hm : ¬(tu = username ∧ tp = password) := h (tu, tp) (by simp)
    simp only [login, if_neg hm]
    exact ih fun q hq => h q (List.mem_cons_of_mem _ hq)

lemma login_error_state {teachers : List (String × String)}
    {sessions : Sessions} {username password freshToken : String} {e : ApiError}
    (h : (login teachers sessions username password freshToken).2 =
      Except.error e) :
    (login teachers sessions username password freshToken).1 = sessions := by
  induction teachers with
  | nil => rfl
  | cons t rest ih =>
    obtain ⟨tu, tp⟩ := t
    by_cases hm : tu = username ∧ tp = password
    · simp [login, hm] at h
    · simp only [login, if_neg hm] at h ⊢
      exact ih h

/-! ### Claim theorems -/

/-- C1: signup fails with `NotFound` when the activity name is not a key of
the catalog; otherwise with `AlreadyRegistered` when the email is already
in the roster; otherwise it appends the email at the end of the roster
(the existing entries kept in order) and returns a success message. -/
theorem signup_spec (cat : Catalog) (name email : String) :
    (dictLookup cat name = none →
      signup_for_activity cat name email = (cat, Except.error ApiError.notFound)) ∧
    (∀ act, dictLookup cat name = some act → email ∈ act.participants →
      signup_for_activity cat name email =
        (cat, Except.error ApiError.alreadyRegistered)) ∧
    (∀ act, dictLookup cat name = some act → email ∉ act.participants →
      ∃ cat1 msg, signup_for_activity cat name email = (cat1, Except.ok msg) ∧
        dictLookup cat1 name =
          some { act with participants := act.participants ++ [email] }) := by
  refine ⟨fun h => ?_, fun act h hm => ?_, fun act h hm => ?_⟩
  · simp [signup_for_activity, h]
  · simp [signup_for_activity, h, hm]
  · have hs : signup_for_activity cat name email =
        (dictSet cat name { act with participants := act.participants ++ [email] },
         Except.ok ("Signed up " ++ email ++ " for " ++ name)) := by
      simp [signup_for_activity, h, hm]
    exact ⟨_, _, hs, dictLookup_dictSet_self _ _ _⟩

/-- Witness for C1 on the seeded catalog. -/
theorem signup_spec_witness :
    ∃ cat1 msg,
      signup_for_activity seedActivities "Chess Club" "new@mergington.edu" =
        (cat1, Except.ok msg) ∧
      dictLookup cat1 "Chess Club" =
        some { description := "Learn strategies and compete in chess tournaments"
               schedule := "Fridays, 3:30 PM - 5:00 PM"
               max_participants := 12
               participants := ["michael@mergington.edu", "daniel@mergington.edu",
                                "new@mergington.edu"] } :=
  (signup_spec seedActivities "Chess Club" "new@mergington.edu").2.2
    { description := "Learn strategies and compete in chess tournaments"
      schedule := "Fridays, 3:30 PM - 5:00 PM"
      max_participants := 12
      participants := ["michael@mergington.edu", "daniel@mergington.edu"] }
    rfl (by decide)

/-- C2: unregister fails with `NotFound` when the activity name is not a key
of the catalog; otherwise with `NotRegistered` when the email is not in the
roster; otherwise it removes the first matching entry and returns a success
message. -/
theorem unregister_spec (cat : Catalog) (name email : String) :
    (dictLookup cat name = none →
      unregister_from_activity cat name email =
        (cat, Except.error ApiError.notFound)) ∧
    (∀ act, dictLookup cat name = some act → email ∉ act.participants →
      unregister_from_activity cat name email =
        (cat, Except.error ApiError.notRegistered)) ∧
    (∀ act, dictLookup cat name = some act → email ∈ act.participants →
      ∃ cat1 msg l1 l2,
        unregister_from_activity cat name email = (cat1, Except.ok msg) ∧
        act.participants = l1 ++ email :: l2 ∧ email ∉ l1 ∧
        dictLookup cat1 name = some { act with participants := l1 ++ l2 }) := by
  refine ⟨fun h => ?_, fun act h hm => ?_, fun act h hm => ?_⟩
  · simp [unregister_from_activity, h]
  · simp [unregister_from_activity, h, hm]
  · obtain ⟨l1, l2, he, hn, hr⟩ := listRemove_split hm
    have hs : unregister_from_activity cat name email =
        (dictSet cat name
           { act with participants := listRemove act.participants email },
         Except.ok ("Unregistered " ++ email ++ " from " ++ name)) := by
      simp [unregister_from_activity, h, hm]
    refine ⟨_, _, l1, l2, hs, he, hn, ?_⟩
    rw [← hr]
    exact dictLookup_dictSet_self _ _ _

/-- Witness for C2 on the seeded catalog. -/
theorem unregister_spec_witness :
    ∃ cat1 msg l1 l2,
      unregister_from_activity seedActivities "Chess Club" "michael@mergington.edu" =
        (cat1, Except.ok msg) ∧
      ["michael@mergington.edu", "daniel@mergington.edu"] = l1 ++ "michael@mergington.edu" :: l2 ∧
      "michael@mergington.edu" ∉ l1 ∧
      dictLookup cat1 "Chess Club" =
        some { description := "Learn strategies and compete in chess tournaments"
               schedule := "Fridays, 3:30 PM - 5:00 PM"
               max_participants := 12
               participants := l1 ++ l2 } :=
  (unregister_spec seedActivities "Chess Club" "michael@mergington.edu").2.2
    { description := "Learn strategies and compete in chess tournaments"
      schedule := "Fridays, 3:30 PM - 5:00 PM"
      max_participants := 12
      participants := ["michael@mergington.edu", "daniel@mergington.edu"] }
    rfl (by decide)

/-- C3: when the session token is absent or not a key of the session store,
signup and unregister both fail with `Unauthenticated` for every activity
name and email, and the whole state (catalog included) is unchanged. -/
theorem unauthenticated_rejected (st : ServerState) (tok : Option String)
    (name email : String)
    (h : tok = none ∨ ∃ t, tok = some t ∧ hasKey st.sessions t = false) :
    signupEndpoint st tok name email =
      (st, Except.error ApiError.unauthenticated) ∧
    unregisterEndpoint st tok name email =
      (st, Except.error ApiError.unauthenticated) := by
  have ha : require_auth st.sessions tok = Except.error ApiError.unauthenticated := by
    rcases h with h | ⟨t, ht, hk⟩
    · subst h
      rfl
    · subst ht
      exact require_auth_of_not_key hk
  exact ⟨signupEndpoint_err ha, unregisterEndpoint_err ha⟩

/-- Witness for C3: a token that is not a key, with a valid activity and a
fresh email. -/
theorem unauthenticated_rejected_witness :
    signupEndpoint ⟨[("tok1", "alice")], seedActivities⟩ (some "tok9")
        "Chess Club" "new@mergington.edu" =
      (⟨[("tok1", "alice")], seedActivities⟩,
       Except.error ApiError.unauthenticated) ∧
    unregisterEndpoint ⟨[("tok1", "alice")], seedActivities⟩ (some "tok9")
        "Chess Club" "new@mergington.edu" =
      (⟨[("tok1", "alice")], seedActivities⟩,
       Except.error ApiError.unauthenticated) :=
  unauthenticated_rejected ⟨[("tok1", "alice")], seedActivities⟩ (some "tok9")
    "Chess Club" "new@mergington.edu" (Or.inr ⟨"tok9", rfl, by decide⟩)

/-- C4: every roster of the seeded catalog is duplicate-free, and the
no-duplicate-roster invariant is preserved by all four operations. -/
theorem nodup_invariant : CatalogNodup seedActivities ∧
    (∀ st tok name email, CatalogNodup st.activities →
      CatalogNodup (signupEndpoint st tok name email).1.activities) ∧
    (∀ st tok name email, CatalogNodup st.activities →
      CatalogNodup (unregisterEndpoint st tok name email).1.activities) ∧
    (∀ teachers st username password freshToken, CatalogNodup st.activities →
      CatalogNodup
        (loginEndpoint teachers st username password freshToken).1.activities) ∧
    (∀ st tok, CatalogNodup st.activities →
      CatalogNodup (logoutEndpoint st tok).1.activities) := by
  refine ⟨by decide, ?_, ?_, ?_, ?_⟩
  · intro st tok name email hc
    unfold signupEndpoint
    cases hr : require_auth st.sessions tok with
    | error e => exact hc
    | ok u =>
      simp only
      unfold signup_for_activity
      cases hl : dictLookup st.activities name with
      | none => exact hc
      | some act =>
        by_cases hm : email ∈ act.participants
        · simp only [if_pos hm]
          exact hc
        · simp only [if_neg hm]
          intro p hp
          rcases mem_dictSet hp with hp1 | hp1
          · subst hp1
            exact nodup_append_singleton (hc _ (dictLookup_mem hl)) hm
          · exact hc _ hp1
  · intro st tok name email hc
    unfold unregisterEndpoint
    cases hr : require_auth st.sessions tok with
    | error e => exact hc
    | ok u =>
      simp only
      unfold unregister_from_activity
      cases hl : dictLookup st.activities name with
      | none => exact hc
      | some act =>
        by_cases hm : email ∈ act.participants
        · simp only [if_pos hm]
          intro p hp
          rcases mem_dictSet hp with hp1 | hp1
          · subst hp1
            exact (hc _ (dictLookup_mem hl)).sublist (listRemove_sublist _ _)
          · exact hc _ hp1
        · simp only [if_neg hm]
          exact hc
  · intro teachers st username password freshToken hc
    exact hc
  · intro st tok hc
    exact hc

/-- Witness for C4: signing a fresh email up on the seeded catalog keeps
every roster duplicate-free. -/
theorem nodup_invariant_witness :
    CatalogNodup (signupEndpoint ⟨[("tok1", "alice")], seedActivities⟩
      (some "tok1") "Chess Club" "new@mergington.edu").1.activities :=
  nodup_invariant.2.1 ⟨[("tok1", "alice")], seedActivities⟩ (some "tok1")
    "Chess Club" "new@mergington.edu" (by decide)

/-- C5: error atomicity — whenever signup, unregister or login answers an
error, the whole server state (catalog and session store) is exactly the
state before the call. -/
theorem error_atomicity :
    (∀ st tok name email e,
      (signupEndpoint st tok name email).2 = Except.error e →
      (signupEndpoint st tok name email).1 = st) ∧
    (∀ st tok name email e,
      (unregisterEndpoint st tok name email).2 = Except.error e →
      (unregisterEndpoint st tok name email).1 = st) ∧
    (∀ teachers st username password freshToken e,
      (loginEndpoint teachers st username password freshToken).2 =
        Except.error e →
      (loginEndpoint teachers st username password freshToken).1 = st) := by
  refine ⟨?_, ?_, ?_⟩
  · intro st tok name email e h
    cases hr : require_auth st.sessions tok with
    | error e2 => rw [signupEndpoint_err hr]
    | ok u =>
      rw [signupEndpoint_auth name email hr] at h ⊢
      rw [signup_error_state h]
  · intro st tok name email e h
    cases hr : require_auth st.sessions tok with
    | error e2 => rw [unregisterEndpoint_err hr]
    | ok u =>
      rw [unregisterEndpoint_auth name email hr] at h ⊢
      rw [unregister_error_state h]
  · intro teachers st username password freshToken e h
    have h2 : (login teachers st.sessions username password freshToken).2 =
        Except.error e := h
    show ({ st with
      sessions := (login teachers st.sessions username password freshToken).1 }
        : ServerState) = st
    rw [login_error_state h2]

/-- Witness for C5: an unauthenticated signup errs and leaves the seeded
state untouched. -/
theorem error_atomicity_witness :
    (signupEndpoint ⟨[], seedActivities⟩ none "Chess Club"
      "new@mergington.edu").1 = ⟨[], seedActivities⟩ :=
  error_atomicity.1 ⟨[], seedActivities⟩ none "Chess Club" "new@mergington.edu"
    ApiError.unauthenticated rfl

/-- C6: signup never enforces capacity — an authenticated signup with a
fresh email on an existing activity succeeds even when the roster is
already at or beyond `max_participants`; and rewriting every
`max_participants` leaves signup's and unregister's behaviour unchanged
(up to the same rewrite of the resulting catalog). -/
theorem capacity_not_enforced :
    (∀ st tok name email act u,
      require_auth st.sessions tok = Except.ok u →
      dictLookup st.activities name = some act →
      email ∉ act.participants →
      act.max_participants ≤ act.participants.length →
      ∃ msg, (signupEndpoint st tok name email).2 = Except.ok msg ∧
        dictLookup (signupEndpoint st tok name email).1.activities name =
          some { act with participants := act.participants ++ [email] }) ∧
    (∀ cat name email n,
      signup_for_activity (setAllMax cat n) name email =
        (setAllMax (signup_for_activity cat name email).1 n,
         (signup_for_activity cat name email).2)) ∧
    (∀ cat name email n,
      unregister_from_activity (setAllMax cat n) name email =
        (setAllMax (unregister_from_activity cat name email).1 n,
         (unregister_from_activity cat name email).2)) := by
  refine ⟨?_, ?_, ?_⟩
  · intro st tok name email act u hr hl hm hcap
    rw [signupEndpoint_auth name email hr, signup_eq_ok hl hm]
    exact ⟨_, rfl, dictLookup_dictSet_self _ _ _⟩
  · intro cat name email n
    cases hl : dictLookup cat name with
    | none =>
      have hl2 : dictLookup (setAllMax cat n) name = none := by
        rw [dictLookup_setAllMax, hl]
        rfl
      rw [signup_eq_notFound email hl, signup_eq_notFound email hl2]
    | some act =>
      have hl2 : dictLookup (setAllMax cat n) name =
          some { act with max_participants := n } := by
        rw [dictLookup_setAllMax, hl]
        rfl
      by_cases hm : email ∈ act.participants
      · have hm2 : email ∈
            ({ act with max_participants := n } : Activity).participants := hm
        rw [signup_eq_already hl hm, signup_eq_already hl2 hm2]
      · have hm2 : email ∉
            ({ act with max_participants := n } : Activity).participants := hm
        rw [signup_eq_ok hl hm, signup_eq_ok hl2 hm2]
        rw [setAllMax_dictSet]
  · intro cat name email n
    cases hl : dictLookup cat name with
    | none =>
      have hl2 : dictLookup (setAllMax cat n) name = none := by
        rw [dictLookup_setAllMax, hl]
        rfl
      rw [unregister_eq_notFound email hl, unregister_eq_notFound email hl2]
    | some act =>
      have hl2 : dictLookup (setAllMax cat n) name =
          some { act with max_participants := n } := by
        rw [dictLookup_setAllMax, hl]
        rfl
      by_cases hm : email ∈ act.participants
      · have hm2 : email ∈
            ({ act with max_participants := n } : Activity).participants := hm
        rw [unregister_eq_ok hl hm, unregister_eq_ok hl2 hm2]
        rw [setAllMax_dictSet]
      · have hm2 : email ∉
            ({ act with max_participants := n } : Activity).participants := hm
        rw [unregister_eq_notRegistered hl hm,
            unregister_eq_notRegistered hl2 hm2]

/-- Witness for C6: an activity whose roster already exceeds its
`max_participants` of 0 still accepts a signup. -/
theorem capacity_not_enforced_witness :
    ∃ msg,
      (signupEndpoint
        ⟨[("tok1", "alice")],
         [("Tiny Club",
            { description := "Tiny"
              schedule := "Mon"
              max_participants := 0
              participants := ["a@mergington.edu"] })]⟩
        (some "tok1") "Tiny Club" "b@mergington.edu").2 = Except.ok msg ∧
      dictLookup (signupEndpoint
        ⟨[("tok1", "alice")],
         [("Tiny Club",
            { description := "Tiny"
              schedule := "Mon"
              max_participants := 0
              participants := ["a@mergington.edu"] })]⟩
        (some "tok1") "Tiny Club" "b@mergington.edu").1.activities "Tiny Club" =
        some { description := "Tiny"
               schedule := "Mon"
               max_participants := 0
               participants := ["a@mergington.edu", "b@mergington.edu"] } :=
  capacity_not_enforced.1
    ⟨[("tok1", "alice")],
     [("Tiny Club",
        { description := "Tiny"
          schedule := "Mon"
          max_participants := 0
          participants := ["a@mergington.edu"] })]⟩
    (some "tok1") "Tiny Club" "b@mergington.edu"
    { description := "Tiny"
      schedule := "Mon"
      max_participants := 0
      participants := ["a@mergington.edu"] }
    "alice" rfl rfl (by decide) (by decide)

/-- C7: login succeeds exactly when some loaded credential pair matches both
the supplied username and password by case-sensitive string equality; on a
mismatch it answers `InvalidCredentials` and leaves the session store
untouched; on success it stores the fresh token mapping to that username. -/
theorem login_auth_spec (teachers : List (String × String))
    (sessions : Sessions) (username password freshToken : String) :
    ((∃ t ∈ teachers, t.1 = username ∧ t.2 = password) →
      login teachers sessions username password freshToken =
        (dictSet sessions freshToken username, Except.ok "Login successful") ∧
      dictLookup (login teachers sessions username password freshToken).1
        freshToken = some username) ∧
    ((¬ ∃ t ∈ teachers, t.1 = username ∧ t.2 = password) →
      login teachers sessions username password freshToken =
        (sessions, Except.error ApiError.invalidCredentials)) := by
  constructor
  · intro h
    refine ⟨login_eq_ok freshToken h, ?_⟩
    rw [login_eq_ok freshToken h]
    exact dictLookup_dictSet_self _ _ _
  · intro h
    refine login_eq_error freshToken ?_
    intro t ht hmatch
    exact h ⟨t, ht, hmatch⟩

/-- Witness for C7: a matching credential pair found mid-scan. -/
theorem login_auth_spec_witness :
    login [("teacher1", "pw1"), ("teacher2", "pw2")] [] "teacher2" "pw2"
        "tok42" =
      ([("tok42", "teacher2")], Except.ok "Login successful") ∧
    dictLookup (login [("teacher1", "pw1"), ("teacher2", "pw2")] []
      "teacher2" "pw2" "tok42").1 "tok42" = some "teacher2" :=
  (login_auth_spec [("teacher1", "pw1"), ("teacher2", "pw2")] [] "teacher2"
    "pw2" "tok42").1 ⟨("teacher2", "pw2"), by decide⟩

/-- C8: logout destroys the session — afterwards the token is no longer a
key of the session store (a no-op when it was absent), resolving it yields
none, and any signup or unregister carrying it fails `Unauthenticated`.
(The well-formedness hypothesis records what holds of the real store: keys
are unique and never the empty string, since they come from
`secrets.token_urlsafe(32)`.) -/
theorem logout_destroys (sessions : Sessions) (t : String) (cat : Catalog)
    (hwf : SessionsWF sessions) :
    (hasKey sessions t = false → logout sessions (some t) = sessions) ∧
    hasKey (logout sessions (some t)) t = false ∧
    get_current_user (logout sessions (some t)) (some t) = none ∧
    (∀ name email,
      signupEndpoint ⟨logout sessions (some t), cat⟩ (some t) name email =
        (⟨logout sessions (some t), cat⟩,
         Except.error ApiError.unauthenticated) ∧
      unregisterEndpoint ⟨logout sessions (some t), cat⟩ (some t) name email =
        (⟨logout sessions (some t), cat⟩,
         Except.error ApiError.unauthenticated)) := by
  have hkey : hasKey (logout sessions (some t)) t = false := by
    by_cases ht : t = ""
    · subst ht
      have hs : logout sessions (some "") = sessions := by
        simp [logout]
      rw [hs]
      exact hasKey_eq_false_iff.2
        (dictLookup_eq_none_of_not_key fun p hp => hwf.2 p hp)
    · by_cases hk : hasKey sessions t = true
      · have hs : logout sessions (some t) = dictErase sessions t := by
          simp [logout, ht, hk]
        rw [hs]
        exact hasKey_eq_false_iff.2 (dictLookup_dictErase_self hwf.1)
      · have hs : logout sessions (some t) = sessions := by
          simp [logout, ht, hk]
        rw [hs]
        exact Bool.not_eq_true _ ▸ hk
  refine ⟨fun hk0 => by simp [logout, hk0], hkey, ?_, ?_⟩
  · simp [get_current_user, hkey]
  · intro name email
    have ha : require_auth (logout sessions (some t)) (some t) =
        Except.error ApiError.unauthenticated := require_auth_of_not_key hkey
    exact ⟨signupEndpoint_err ha, unregisterEndpoint_err ha⟩

/-- Witness for C8 on a one-session store. -/
theorem logout_destroys_witness :
    hasKey (logout [("tok1", "alice")] (some "tok1")) "tok1" = false ∧
    get_current_user (logout [("tok1", "alice")] (some "tok1"))
      (some "tok1") = none :=
  ⟨(logout_destroys [("tok1", "alice")] "tok1" seedActivities (by decide)).2.1,
   (logout_destroys [("tok1", "alice")] "tok1" seedActivities
     (by decide)).2.2.1⟩

/-- C9: frame property — a successful signup or unregister on one activity
leaves the session store, every other activity's entry, and the activity's
own description, schedule and `max_participants` unchanged. -/
theorem mutation_frame :
    (∀ st tok name email st1 msg,
      signupEndpoint st tok name email = (st1, Except.ok msg) →
      st1.sessions = st.sessions ∧
      (∀ n, n ≠ name →
        dictLookup st1.activities n = dictLookup st.activities n) ∧
      (∀ act1, dictLookup st1.activities name = some act1 →
        ∃ act, dictLookup st.activities name = some act ∧
          act1.description = act.description ∧
          act1.schedule = act.schedule ∧
          act1.max_participants = act.max_participants)) ∧
    (∀ st tok name email st1 msg,
      unregisterEndpoint st tok name email = (st1, Except.ok msg) →
      st1.sessions = st.sessions ∧
      (∀ n, n ≠ name →
        dictLookup st1.activities n = dictLookup st.activities n) ∧
      (∀ act1, dictLookup st1.activities name = some act1 →
        ∃ act, dictLookup st.activities name = some act ∧
          act1.description = act.description ∧
          act1.schedule = act.schedule ∧
          act1.max_participants = act.max_participants)) := by
  constructor
  · intro st tok name email st1 msg h
    cases hr : require_auth st.sessions tok with
    | error e =>
      rw [signupEndpoint_err hr] at h
      simp at h
    | ok u =>
      rw [signupEndpoint_auth name email hr] at h
      cases hl : dictLookup st.activities name with
      | none =>
        rw [signup_eq_notFound email hl] at h
        simp at h
      | some act =>
        by_cases hm : email ∈ act.participants
        · rw [signup_eq_already hl hm] at h
          simp at h
        · rw [signup_eq_ok hl hm] at h
          injection h with h1 h2
          subst h1
          refine ⟨rfl, fun n hn => dictLookup_dictSet_ne _ _ _ _ hn, ?_⟩
          intro act1 h2
          rw [dictLookup_dictSet_self] at h2
          cases h2
          exact ⟨act, rfl, rfl, rfl, rfl⟩
  · intro st tok name email st1 msg h
    cases hr : require_auth st.sessions tok with
    | error e =>
      rw [unregisterEndpoint_err hr] at h
      simp at h
    | ok u =>
      rw [unregisterEndpoint_auth name email hr] at h
      cases hl : dictLookup st.activities name with
      | none =>
        rw [unregister_eq_notFound email hl] at h
        simp at h
      | some act =>
        by_cases hm : email ∈ act.participants
        · rw [unregister_eq_ok hl hm] at h
          injection h with h1 h2
          subst h1
          refine ⟨rfl, fun n hn => dictLookup_dictSet_ne _ _ _ _ hn, ?_⟩
          intro act1 h2
          rw [dictLookup_dictSet_self] at h2
          cases h2
          exact ⟨act, rfl, rfl, rfl, rfl⟩
        · rw [unregister_eq_notRegistered hl hm] at h
          simp at h

/-- Witness for C9: after a successful signup to Chess Club, the Math Club
entry is untouched. -/
theorem mutation_frame_witness :
    dictLookup (signupEndpoint ⟨[("tok1", "alice")], seedActivities⟩
        (some "tok1") "Chess Club" "new@mergington.edu").1.activities
      "Math Club" = dictLookup seedActivities "Math Club" :=
  (mutation_frame.1 ⟨[("tok1", "alice")], seedActivities⟩ (some "tok1")
    "Chess Club" "new@mergington.edu"
    (signupEndpoint ⟨[("tok1", "alice")], seedActivities⟩ (some "tok1")
      "Chess Club" "new@mergington.edu").1
    "Signed up new@mergington.edu for Chess Club" rfl).2.1
    "Math Club" (by decide)

/-- C10: round-trip — on a duplicate-free catalog, a successful signup of a
fresh email followed by unregister of the same email restores the whole
server state exactly. -/
theorem signup_unregister_roundtrip (st : ServerState) (tok : Option String)
    (name email : String) (act : Activity) (u : String)
    (_hnd : CatalogNodup st.activities)
    (hauth : require_auth st.sessions tok = Except.ok u)
    (hact : dictLookup st.activities name = some act)
    (hmem : email ∉ act.participants) :
    ∃ st1,
      signupEndpoint st tok name email =
        (st1, Except.ok ("Signed up " ++ email ++ " for " ++ name)) ∧
      unregisterEndpoint st1 tok name email =
        (st, Except.ok ("Unregistered " ++ email ++ " from " ++ name)) := by
  refine ⟨{ st with activities := dictSet st.activities name ({ act with participants := act.participants ++ [email] }) }, ?_, ?_⟩
  · rw [signupEndpoint_auth name email hauth, signup_eq_ok hact hmem]
  · have hauth1 : require_auth ({ st with activities := dictSet st.activities name ({ act with participants := act.participants ++ [email] }) } : ServerState).sessions tok = Except.ok u := hauth
    rw [unregisterEndpoint_auth name email hauth1]
    have hl1 : dictLookup (dictSet st.activities name
        { act with participants := act.participants ++ [email] }) name =
        some { act with participants := act.participants ++ [email] } :=
      dictLookup_dictSet_self _ _ _
    have hm1 : email ∈ ({ act with
        participants := act.participants ++ [email] } : Activity).participants := by
      simp
    rw [unregister_eq_ok hl1 hm1]
    have hv : ({ { act with participants := act.participants ++ [email] } with
        participants := listRemove ({ act with
          participants := act.participants ++ [email] } : Activity).participants
          email } : Activity) = act := by
      have : listRemove (act.participants ++ [email]) email = act.participants :=
        listRemove_append_self hmem
      simp only [this]
    rw [hv, dictSet_dictSet, dictSet_lookup_eq_self hact]

/-- Witness for C10 on the seeded catalog. -/
theorem signup_unregister_roundtrip_witness :
    ∃ st1,
      signupEndpoint ⟨[("tok1", "alice")], seedActivities⟩ (some "tok1")
          "Chess Club" "new@mergington.edu" =
        (st1,
         Except.ok "Signed up new@mergington.edu for Chess Club") ∧
      unregisterEndpoint st1 (some "tok1") "Chess Club" "new@mergington.edu" =
        (⟨[("tok1", "alice")], seedActivities⟩,
         Except.ok "Unregistered new@mergington.edu from Chess Club") :=
  signup_unregister_roundtrip ⟨[("tok1", "alice")], seedActivities⟩
    (some "tok1") "Chess Club" "new@mergington.edu"
    { description := "Learn strategies and compete in chess tournaments"
      schedule := "Fridays, 3:30 PM - 5:00 PM"
      max_participants := 12
      participants := ["michael@mergington.edu", "daniel@mergington.edu"] }
    "alice" (by decide) rfl rfl (by decide)

end Mergington
